import Mathlib

/-!
Shallow embedding of the energy-storage arbitrage simulator:
the storage state machine (`models/energy_storage.py`) and the
threshold-lookahead trading strategy (`strategies/threshold_lookahead.py`).
Python floats are modelled as rationals (`ℚ`); the sentinel
`float("inf")` used for `last_charge_price` is modelled as `Option ℚ`
with `none` standing for `+∞`.
-/

set_option maxRecDepth 4000

namespace EnergyStorageSim

/-- Transaction record appended by `_charge_step` / `_discharge_step`.
The two dict shapes in the source have disjoint field sets, so we use a
tagged union. Fields appear in source order. -/
inductive Transaction where
  | charge (amount price energy_cost transaction_fee cost energy_level : ℚ)
      (index : ℕ) (interval : ℕ)
  | discharge (amount_gross amount_usable energy_loss price gross_revenue
      efficiency_loss energy_revenue transaction_fee revenue energy_level : ℚ)
      (index : ℕ) (interval : ℕ)
  deriving DecidableEq, Repr

/-- State of `EnergyStorage` (all fields set in `__init__`). -/
structure EnergyStorage where
  capacity : ℚ
  charge_rate : ℚ
  max_power : ℚ
  efficiency : ℚ
  fee_per_mwh : ℚ
  energy_level : ℚ
  cash : ℚ
  transactions : List Transaction
  is_charging : Bool
  is_discharging : Bool
  charging_price : ℚ
  discharging_price : ℚ
  charging_start_index : ℤ
  current_interval : ℕ
  total_charged_energy : ℚ
  total_discharged_energy : ℚ
  total_gross_energy : ℚ
  total_charge_cost : ℚ
  total_discharge_revenue : ℚ
  gross_energy_revenue : ℚ
  efficiency_losses : ℚ
  energy_losses : ℚ
  total_cycles : ℚ
  daily_cycles : ℚ
  operation_time_days : ℕ

/-- `EnergyStorage.__init__(capacity_mwh, charge_rate, efficiency, fee_per_mwh)`. -/
def mkStorage (capacity_mwh charge_rate efficiency fee_per_mwh : ℚ) : EnergyStorage where
  capacity := capacity_mwh
  charge_rate := charge_rate
  max_power := capacity_mwh * charge_rate
  efficiency := efficiency
  fee_per_mwh := fee_per_mwh
  energy_level := 0
  cash := 0
  transactions := []
  is_charging := false
  is_discharging := false
  charging_price := 0
  discharging_price := 0
  charging_start_index := -1
  current_interval := 0
  total_charged_energy := 0
  total_discharged_energy := 0
  total_gross_energy := 0
  total_charge_cost := 0
  total_discharge_revenue := 0
  gross_energy_revenue := 0
  efficiency_losses := 0
  energy_losses := 0
  total_cycles := 0
  daily_cycles := 0
  operation_time_days := 0

/-- Transfer amount of one charge step:
`amount = min(max_power * 0.25, capacity - energy_level)`. -/
def charge_amount (s : EnergyStorage) : ℚ :=
  min (s.max_power * (1/4)) (s.capacity - s.energy_level)

/-- Transfer amount of one discharge step:
`amount = min(max_power * 0.25, energy_level)`. -/
def discharge_amount (s : EnergyStorage) : ℚ :=
  min (s.max_power * (1/4)) s.energy_level

/-- `EnergyStorage._charge_step(price, time_index)`: returns the Python
boolean result together with the mutated state. -/
def charge_step (s : EnergyStorage) (price : ℚ) (time_index : ℕ) :
    Bool × EnergyStorage :=
  let amount := charge_amount s
  if amount ≤ 0 then
    (false, { s with is_charging := false })
  else
    let energy_cost := amount * price
    let transaction_fee := amount * s.fee_per_mwh
    let cost := energy_cost + transaction_fee
    (true,
      { s with
        energy_level := s.energy_level + amount
        cash := s.cash - cost
        total_charged_energy := s.total_charged_energy + amount
        total_charge_cost := s.total_charge_cost + cost
        transactions := s.transactions ++
          [Transaction.charge amount price energy_cost transaction_fee cost
            (s.energy_level + amount) time_index s.current_interval] })

/-- `EnergyStorage._discharge_step(price, time_index)`. -/
def discharge_step (s : EnergyStorage) (price : ℚ) (time_index : ℕ) :
    Bool × EnergyStorage :=
  let amount := discharge_amount s
  if amount ≤ 0 then
    (false, { s with is_discharging := false })
  else
    let gross_energy := amount
    let usable_energy := amount * s.efficiency
    let energy_loss := amount * (1 - s.efficiency)
    let gross_revenue := amount * price
    let efficiency_loss := gross_revenue * (1 - s.efficiency)
    let energy_revenue := usable_energy * price
    let transaction_fee := usable_energy * s.fee_per_mwh
    let revenue := energy_revenue - transaction_fee
    let cycle_fraction := amount / s.capacity
    (true,
      { s with
        energy_level := s.energy_level - amount
        cash := s.cash + revenue
        total_gross_energy := s.total_gross_energy + gross_energy
        total_discharged_energy := s.total_discharged_energy + usable_energy
        total_discharge_revenue := s.total_discharge_revenue + revenue
        gross_energy_revenue := s.gross_energy_revenue + gross_revenue
        efficiency_losses := s.efficiency_losses + efficiency_loss
        energy_losses := s.energy_losses + energy_loss
        transactions := s.transactions ++
          [Transaction.discharge gross_energy usable_energy energy_loss price
            gross_revenue efficiency_loss energy_revenue transaction_fee revenue
            (s.energy_level - amount) time_index s.current_interval]
        daily_cycles := s.daily_cycles + cycle_fraction
        total_cycles := s.total_cycles + cycle_fraction })

/-- `EnergyStorage.start_charging(price, time_index)`. -/
def start_charging (s : EnergyStorage) (price : ℚ) (time_index : ℕ) :
    Bool × EnergyStorage :=
  if s.is_charging || s.is_discharging then
    (false, s)
  else if s.capacity ≤ s.energy_level then
    (false, s)
  else
    charge_step
      { s with
        is_charging := true
        charging_price := price
        charging_start_index := (time_index : ℤ)
        current_interval := 0 }
      price time_index

/-- `EnergyStorage.start_discharging(price, time_index)`. -/
def start_discharging (s : EnergyStorage) (price : ℚ) (time_index : ℕ) :
    Bool × EnergyStorage :=
  if s.is_charging || s.is_discharging then
    (false, s)
  else if s.energy_level ≤ 0 then
    (false, s)
  else
    discharge_step
      { s with
        is_discharging := true
        discharging_price := price
        charging_start_index := (time_index : ℤ)
        current_interval := 0 }
      price time_index

/-- `EnergyStorage.continue_process(time_index)`. -/
def continue_process (s : EnergyStorage) (time_index : ℕ) :
    Bool × EnergyStorage :=
  let s := { s with current_interval := s.current_interval + 1 }
  if s.is_charging then
    charge_step s s.charging_price time_index
  else if s.is_discharging then
    discharge_step s s.discharging_price time_index
  else
    (false, s)

/-- `EnergyStorage.is_processing()`. -/
def is_processing (s : EnergyStorage) : Bool :=
  s.is_charging || s.is_discharging

/-- `EnergyStorage.get_total_profit()`. -/
def get_total_profit (s : EnergyStorage) : ℚ :=
  s.total_discharge_revenue - s.total_charge_cost

/-- `EnergyStorage.reset_daily_transactions()`. -/
def reset_daily_transactions (s : EnergyStorage) : EnergyStorage :=
  { s with
    transactions := []
    is_charging := false
    is_discharging := false
    daily_cycles := 0 }

/-- One mutating call on the storage, as issued by `threshold_lookahead`:
the four methods of the claims plus the two direct flag assignments
(`storage.is_charging = False`, `storage.is_discharging = False`) that the
engine performs on operation completion. -/
inductive Op where
  | startCharging (price : ℚ) (time_index : ℕ)
  | startDischarging (price : ℚ) (time_index : ℕ)
  | continueProcess (time_index : ℕ)
  | resetDaily
  | clearChargingFlag
  | clearDischargingFlag
  deriving DecidableEq, Repr

/-- Effect of one call on the state (boolean results are discarded). -/
def applyOp (s : EnergyStorage) : Op → EnergyStorage
  | Op.startCharging p t => (start_charging s p t).2
  | Op.startDischarging p t => (start_discharging s p t).2
  | Op.continueProcess t => (continue_process s t).2
  | Op.resetDaily => reset_daily_transactions s
  | Op.clearChargingFlag => { s with is_charging := false }
  | Op.clearDischargingFlag => { s with is_discharging := false }

/-- State after a sequence of calls. -/
def runOps (s : EnergyStorage) (ops : List Op) : EnergyStorage :=
  ops.foldl applyOp s

/-- Ascending insertion of one rational into a sorted list. -/
def insertAsc (x : ℚ) : List ℚ → List ℚ
  | [] => [x]
  | y :: ys => if x ≤ y then x :: y :: ys else y :: insertAsc x ys

/-- Ascending insertion sort, used to model `np.percentile`. -/
def sortAsc (l : List ℚ) : List ℚ := l.foldr insertAsc []

/-- `np.percentile(a, p)` for an integer percentage `p` with numpy's
default linear interpolation: with `n` values sorted ascending and
`h = p·(n−1)/100 ≥ 0`, the result is
`a[⌊h⌋] + (h − ⌊h⌋) · (a[⌊h⌋+1] − a[⌊h⌋])` (the last term vanishing when
`h` is integral); `⌊h⌋` is computed by Nat division. Only called on
nonempty windows by the engine. -/
def percentile (l : List ℚ) (p : ℕ) : ℚ :=
  let sorted := sortAsc l
  let n := sorted.length
  let i := p * (n - 1) / 100
  let h : ℚ := ((p * (n - 1) : ℕ) : ℚ) / 100
  let lo := sorted.getD i 0
  let hi := sorted.getD (i + 1) lo
  lo + (h - (i : ℚ)) * (hi - lo)

/-- `np.mean` of a list of rationals. -/
def listMean (l : List ℚ) : ℚ := l.sum / (l.length : ℚ)

/-- One entry of the engine's `energy_history`. -/
structure EnergyHistoryEntry where
  time_index : ℕ
  energy_level : ℚ
  action : ℤ
  deriving DecidableEq, Repr

/-- `ROLLING_WINDOW_SIZE` from `config.py`, the default window size. -/
def ROLLING_WINDOW_SIZE : ℕ := 6

/-- Rolling look-ahead window at index `idx`:
`price_array[idx : idx + min(window_size, T − idx)]`. -/
def future_prices (price_array : List ℚ) (window_size idx : ℕ) : List ℚ :=
  (price_array.drop idx).take (min window_size (price_array.length - idx))

/-- Target charge amount: 80% of the available capacity when the current
price is below the 10th percentile of the window, else 50%. -/
def charge_target_amount (price_array : List ℚ) (window_size idx : ℕ)
    (s : EnergyStorage) : ℚ :=
  let current_price := price_array.getD idx 0
  let available_capacity := s.capacity - s.energy_level
  if current_price < percentile (future_prices price_array window_size idx) 10
  then available_capacity * (4/5)
  else available_capacity * (1/2)

/-- Target discharge amount: 80% of the stored energy when the current
price is above the 90th percentile of the window, else 50%. -/
def discharge_target_amount (price_array : List ℚ) (window_size idx : ℕ)
    (s : EnergyStorage) : ℚ :=
  let current_price := price_array.getD idx 0
  let available_energy := s.energy_level
  if percentile (future_prices price_array window_size idx) 90 < current_price
  then available_energy * (4/5)
  else available_energy * (1/2)

/-- Charge decision: room in the battery, price below the 20th-percentile
buy threshold, window mean at least 20% above the price, better than the
last charge price (`none` models the `last_charge_price == inf` sentinel
test), and a target amount of at least 10% of capacity. -/
def charge_trigger (price_array : List ℚ) (window_size idx : ℕ)
    (s : EnergyStorage) (last_charge_price : Option ℚ) : Prop :=
  let current_price := price_array.getD idx 0
  let fut := future_prices price_array window_size idx
  s.energy_level < s.capacity * (9/10) ∧
  current_price < percentile fut 20 ∧
  current_price * (6/5) < listMean fut ∧
  (∀ lcp ∈ last_charge_price, current_price < lcp * (19/20)) ∧
  s.capacity * (1/10) ≤ charge_target_amount price_array window_size idx s

instance (price_array : List ℚ) (window_size idx : ℕ) (s : EnergyStorage)
    (lcp : Option ℚ) :
    Decidable (charge_trigger price_array window_size idx s lcp) := by
  unfold charge_trigger
  exact inferInstance

/-- Discharge decision: enough stored energy, price above the
80th-percentile sell threshold, window mean at least 10% below the price,
better than the last discharge price (0 is the "no prior discharge"
sentinel), and a target amount of at least 10% of capacity. -/
def discharge_trigger (price_array : List ℚ) (window_size idx : ℕ)
    (s : EnergyStorage) (last_discharge_price : ℚ) : Prop :=
  let current_price := price_array.getD idx 0
  let fut := future_prices price_array window_size idx
  s.capacity * (1/10) < s.energy_level ∧
  percentile fut 80 < current_price ∧
  listMean fut < current_price * (9/10) ∧
  (last_discharge_price * (21/20) < current_price ∨
    last_discharge_price = 0) ∧
  s.capacity * (1/10) ≤ discharge_target_amount price_array window_size idx s

instance (price_array : List ℚ) (window_size idx : ℕ) (s : EnergyStorage)
    (ldp : ℚ) :
    Decidable (discharge_trigger price_array window_size idx s ldp) := by
  unfold discharge_trigger
  exact inferInstance

/-- Local state of the `threshold_lookahead` loop. `last_charge_price` is
`float("inf")` in the source, modelled as `Option ℚ` with `none` = `+∞`;
`current_price_var` models the local variable `current_price`, with `none`
standing for "not yet in `locals()`" (it is assigned only on decision
steps, so during an operation it holds the stale decision-step value). -/
structure EngineState where
  storage : EnergyStorage
  charge_target : Option ℚ
  discharge_target : Option ℚ
  current_operation_price : Option ℚ
  last_discharge_price : ℚ
  last_charge_price : Option ℚ
  current_price_var : Option ℚ
  energy_history : List EnergyHistoryEntry
  idx : ℕ

/-- Loop state on entry to `threshold_lookahead`. -/
def mkEngineState (storage : EnergyStorage) : EngineState where
  storage := storage
  charge_target := none
  discharge_target := none
  current_operation_price := none
  last_discharge_price := 0
  last_charge_price := none
  current_price_var := none
  energy_history := []
  idx := 0

/-- One iteration of the `while idx < T` loop of `threshold_lookahead`
(logging omitted; it does not affect state). -/
def engineStep (price_array : List ℚ) (window_size : ℕ) (e : EngineState) :
    EngineState :=
  let T := price_array.length
  if e.idx < T then
    let s := e.storage
    let e := { e with
      energy_history := e.energy_history ++
        [({ time_index := e.idx
            energy_level := s.energy_level
            action := if s.is_charging then 1 else
              if s.is_discharging then -1 else 0 } : EnergyHistoryEntry)] }
    if is_processing s then
      -- an operation is running: check its target, else continue it;
      -- the boolean returned by continue_process is discarded, as in the
      -- source (`storage.continue_process(idx)` as a bare statement)
      if s.is_charging && e.charge_target.isSome then
        let tgt := e.charge_target.getD 0
        if tgt - 1/10 ≤ s.energy_level then
          { e with
            storage := { s with is_charging := false }
            charge_target := none
            current_operation_price := none
            idx := e.idx + 1 }
        else
          { e with storage := (continue_process s e.idx).2, idx := e.idx + 1 }
      else if s.is_discharging && e.discharge_target.isSome then
        let tgt := e.discharge_target.getD 0
        if s.energy_level ≤ tgt + 1/10 then
          { e with
            storage := { s with is_discharging := false }
            discharge_target := none
            current_operation_price := none
            last_discharge_price := e.current_price_var.getD 0
            last_charge_price := none
            idx := e.idx + 1 }
        else
          { e with storage := (continue_process s e.idx).2, idx := e.idx + 1 }
      else
        { e with storage := (continue_process s e.idx).2, idx := e.idx + 1 }
    else
      -- no operation running: evaluate a new trading decision
      let current_price := price_array.getD e.idx 0
      let e := { e with current_price_var := some current_price }
      if 1 ≤ min window_size (T - e.idx) then
        if charge_trigger price_array window_size e.idx s
            e.last_charge_price then
          { e with
            charge_target := some (min (s.energy_level +
              charge_target_amount price_array window_size e.idx s)
              s.capacity)
            last_charge_price := some current_price
            current_operation_price := some current_price
            storage := (start_charging s current_price e.idx).2
            last_discharge_price := 0
            idx := e.idx + 1 }
        else
          if discharge_trigger price_array window_size e.idx s
              e.last_discharge_price then
            { e with
              discharge_target := some (max (s.energy_level -
                discharge_target_amount price_array window_size e.idx s) 0)
              current_operation_price := some current_price
              last_discharge_price := current_price
              last_charge_price := none
              storage := (start_discharging s current_price e.idx).2
              idx := e.idx + 1 }
          else
            { e with idx := e.idx + 1 }
      else
        { e with idx := e.idx + 1 }
  else e

/-- `threshold_lookahead(prices_df, storage, window_size)`: the loop body
runs once per time index (`idx` advances by exactly 1 each iteration), so
iterating the step `T` times from the initial loop state is the loop. -/
def threshold_lookahead (price_array : List ℚ) (storage : EnergyStorage)
    (window_size : ℕ) : EnergyStorage × List EnergyHistoryEntry :=
  let final :=
    (engineStep price_array window_size)^[price_array.length]
      (mkEngineState storage)
  (final.storage, final.energy_history)

/-- Cycle fraction contributed by one logged transaction: a discharge
transaction contributes its gross `amount / capacity`, a charge
transaction contributes nothing. -/
def cycleContrib (cap : ℚ) : Transaction → ℚ
  | Transaction.discharge ag _ _ _ _ _ _ _ _ _ _ _ => ag / cap
  | Transaction.charge _ _ _ _ _ _ _ _ => 0

/-- Sum of per-discharge-transaction cycle fractions over a log. -/
def dischargeCycleSum (ts : List Transaction) (cap : ℚ) : ℚ :=
  (ts.map (cycleContrib cap)).sum

/-- Mutual exclusion of the two mode flags, as a disjunction. -/
def NotBothModes (s : EnergyStorage) : Prop :=
  s.is_charging = false ∨ s.is_discharging = false

/-- Cash always equals the running profit accumulator difference. -/
def CashInv (s : EnergyStorage) : Prop :=
  s.cash = s.total_discharge_revenue - s.total_charge_cost

/-- Logged cycle fractions always add up to the daily cycle counter. -/
def CycInv (s : EnergyStorage) : Prop :=
  dischargeCycleSum s.transactions s.capacity = s.daily_cycles

/-! Concrete states and runs used by witnesses and counterexamples. -/

/-- A storage that is mid-charge (busy). -/
def sBusyW : EnergyStorage := { mkStorage 1 1 1 0 with is_charging := true }

/-- A full storage (energy level equals capacity). -/
def sFullW : EnergyStorage := { mkStorage 1 1 1 0 with energy_level := 1 }

/-- A storage holding 1 MWh with capacity 1, C-rate 1, efficiency 1/2. -/
def sHalfEffW : EnergyStorage :=
  { mkStorage 1 1 (1/2) 0 with energy_level := 1 }

/-- Price series of the C4 scenario: one low outlier then flat prices. -/
def pricesC4 : List ℚ := [5, 50, 50, 50, 50, 50]

/-- Storage with C-rate 0: every step's transfer amount computes to 0. -/
def stC4 : EnergyStorage := mkStorage 1 0 (17/20) 0

/-- Engine state after `n` iterations of the C4 scenario. -/
def engineRunC4 (n : ℕ) : EngineState :=
  (engineStep pricesC4 ROLLING_WINDOW_SIZE)^[n] (mkEngineState stC4)

/-- Price series of the C7 scenario: a price spike then low prices. -/
def pricesC7 : List ℚ := [100, 10, 10, 10]

/-- Pre-charged storage driving the C7 scenario discharge. -/
def stC7 : EnergyStorage := { mkStorage 1 1 (17/20) 0 with energy_level := 1 }

/-- Engine state after `n` iterations of the C7 scenario. -/
def engineRunC7 (n : ℕ) : EngineState :=
  (engineStep pricesC7 ROLLING_WINDOW_SIZE)^[n] (mkEngineState stC7)

/-- C7 storage after the discharge started at price 100 (index 0). -/
def st7b : EnergyStorage := (start_discharging stC7 100 0).2

/-- C7 storage after the first continue step (index 1). -/
def st7c : EnergyStorage := (continue_process st7b 1).2

/-- C7 storage after the second continue step (index 2). -/
def st7d : EnergyStorage := (continue_process st7c 2).2

/-- C7 engine state after the decision step at index 0: discharging
towards target 1/5, operation price 100. -/
def e7a : EngineState :=
  { mkEngineState stC7 with
    energy_history := [{ time_index := 0, energy_level := 1, action := 0 }]
    current_price_var := some 100
    discharge_target := some (1/5)
    current_operation_price := some 100
    last_discharge_price := 100
    last_charge_price := none
    storage := st7b
    idx := 1 }

/-- C7 engine state after the continue step at index 1. -/
def e7b : EngineState :=
  { e7a with
    energy_history := e7a.energy_history ++
      [{ time_index := 1, energy_level := 3/4, action := -1 }]
    storage := st7c
    idx := 2 }

/-- C7 engine state after the continue step at index 2. -/
def e7c : EngineState :=
  { e7b with
    energy_history := e7b.energy_history ++
      [{ time_index := 2, energy_level := 1/2, action := -1 }]
    storage := st7d
    idx := 3 }

/-- C7 engine state after the completion step at index 3: the stale
decision price 100 is recorded as the last discharge price even though
the price at index 3 is 10. -/
def e7d : EngineState :=
  { e7c with
    energy_history := e7c.energy_history ++
      [{ time_index := 3, energy_level := 1/4, action := -1 }]
    storage := { st7d with is_discharging := false }
    discharge_target := none
    current_operation_price := none
    last_discharge_price := 100
    last_charge_price := none
    idx := 4 }

/-- A mid-charge engine state whose next charge step cannot move energy
(C-rate 0), used to witness the amended C4 claim. -/
def eWC4 : EngineState :=
  { mkEngineState { stC4 with is_charging := true } with
    charge_target := some 1
    current_operation_price := some 5 }

/-- Engine state after the first C4 iteration: the charge decision fired
at index 0 (price 5), `start_charging` failed immediately (C-rate 0, so
the step amount is 0), the storage fell back to Idle — yet the target
tracking is left set. -/
def e4one : EngineState :=
  { mkEngineState
      { stC4 with charging_price := 5, charging_start_index := 0 } with
    charge_target := some (4/5)
    current_operation_price := some 5
    last_charge_price := some 5
    current_price_var := some 5
    energy_history :=
      [{ time_index := 0, energy_level := 0, action := 0 }]
    idx := 1 }

/-- Engine state after `n ≥ 2` C4 iterations: only the history, the step
index and the stale price variable advance; the stale charge target
survives. -/
def e4n (n : ℕ) : EngineState :=
  { e4one with
    current_price_var := some 50
    energy_history := (List.range n).map
      (fun i => { time_index := i, energy_level := 0, action := 0 })
    idx := n }

/-- History of `n` idle entries at energy level 0. -/
def flatHistory (n : ℕ) : List EnergyHistoryEntry :=
  (List.range n).map
    (fun i => { time_index := i, energy_level := 0, action := 0 })

/-- Storage of Scenario A: capacity 1 MWh, C-rate 0.5, efficiency 0.85,
fee 0. -/
def stFlat : EnergyStorage := mkStorage 1 (1/2) (17/20) 0

/-- Price series of Scenario A: 10 quarter-hours flat at 50. -/
def prFlat : List ℚ := List.replicate 10 50

/-- Engine state after `n` iterations of Scenario A: nothing but the
history, the step index and the stale price variable ever change. -/
def eFlat (n : ℕ) : EngineState :=
  { mkEngineState stFlat with
    energy_history := flatHistory n
    idx := n
    current_price_var := if n = 0 then none else some 50 }

/-! Step-level lemmas: each step function either fails with only its own
mode flag cleared, or succeeds with the record update spelled out. -/

lemma charge_step_of_nonpos (s : EnergyStorage) (p : ℚ) (t : ℕ)
    (h : charge_amount s ≤ 0) :
    charge_step s p t = (false, { s with is_charging := false }) := by
  simp only [charge_step, if_pos h]

lemma charge_step_of_pos (s : EnergyStorage) (p : ℚ) (t : ℕ)
    (h : ¬ charge_amount s ≤ 0) :
    charge_step s p t = (true,
      { s with
        energy_level := s.energy_level + charge_amount s
        cash := s.cash - (charge_amount s * p + charge_amount s * s.fee_per_mwh)
        total_charged_energy := s.total_charged_energy + charge_amount s
        total_charge_cost := s.total_charge_cost +
          (charge_amount s * p + charge_amount s * s.fee_per_mwh)
        transactions := s.transactions ++
          [Transaction.charge (charge_amount s) p (charge_amount s * p)
            (charge_amount s * s.fee_per_mwh)
            (charge_amount s * p + charge_amount s * s.fee_per_mwh)
            (s.energy_level + charge_amount s) t s.current_interval] }) := by
  simp only [charge_step, if_neg h]

lemma discharge_step_of_nonpos (s : EnergyStorage) (p : ℚ) (t : ℕ)
    (h : discharge_amount s ≤ 0) :
    discharge_step s p t = (false, { s with is_discharging := false }) := by
  simp only [discharge_step, if_pos h]

lemma discharge_step_of_pos (s : EnergyStorage) (p : ℚ) (t : ℕ)
    (h : ¬ discharge_amount s ≤ 0) :
    discharge_step s p t = (true,
      { s with
        energy_level := s.energy_level - discharge_amount s
        cash := s.cash + (discharge_amount s * s.efficiency * p -
          discharge_amount s * s.efficiency * s.fee_per_mwh)
        total_gross_energy := s.total_gross_energy + discharge_amount s
        total_discharged_energy := s.total_discharged_energy +
          discharge_amount s * s.efficiency
        total_discharge_revenue := s.total_discharge_revenue +
          (discharge_amount s * s.efficiency * p -
            discharge_amount s * s.efficiency * s.fee_per_mwh)
        gross_energy_revenue := s.gross_energy_revenue + discharge_amount s * p
        efficiency_losses := s.efficiency_losses +
          discharge_amount s * p * (1 - s.efficiency)
        energy_losses := s.energy_losses + discharge_amount s * (1 - s.efficiency)
        transactions := s.transactions ++
          [Transaction.discharge (discharge_amount s)
            (discharge_amount s * s.efficiency)
            (discharge_amount s * (1 - s.efficiency)) p
            (discharge_amount s * p)
            (discharge_amount s * p * (1 - s.efficiency))
            (discharge_amount s * s.efficiency * p)
            (discharge_amount s * s.efficiency * s.fee_per_mwh)
            (discharge_amount s * s.efficiency * p -
              discharge_amount s * s.efficiency * s.fee_per_mwh)
            (s.energy_level - discharge_amount s) t s.current_interval]
        daily_cycles := s.daily_cycles + discharge_amount s / s.capacity
        total_cycles := s.total_cycles + discharge_amount s / s.capacity }) := by
  simp only [discharge_step, if_neg h]

/-! Preservation lemmas for arbitrary call sequences. -/

lemma charge_step_bounds (s : EnergyStorage) (p : ℚ) (t : ℕ)
    (h0 : 0 ≤ s.energy_level) (h1 : s.energy_level ≤ s.capacity) :
    0 ≤ ((charge_step s p t).2).energy_level ∧
      ((charge_step s p t).2).energy_level ≤ ((charge_step s p t).2).capacity ∧
      ((charge_step s p t).2).capacity = s.capacity := by
  by_cases h : charge_amount s ≤ 0
  · rw [charge_step_of_nonpos s p t h]
    exact ⟨h0, h1, rfl⟩
  · rw [charge_step_of_pos s p t h]
    have hpos : 0 < charge_amount s := not_le.mp h
    have hle : charge_amount s ≤ s.capacity - s.energy_level :=
      min_le_right _ _
    refine ⟨?_, ?_, rfl⟩
    · dsimp only
      linarith
    · dsimp only
      linarith

lemma discharge_step_bounds (s : EnergyStorage) (p : ℚ) (t : ℕ)
    (h0 : 0 ≤ s.energy_level) (h1 : s.energy_level ≤ s.capacity) :
    0 ≤ ((discharge_step s p t).2).energy_level ∧
      ((discharge_step s p t).2).energy_level ≤
        ((discharge_step s p t).2).capacity ∧
      ((discharge_step s p t).2).capacity = s.capacity := by
  by_cases h : discharge_amount s ≤ 0
  · rw [discharge_step_of_nonpos s p t h]
    exact ⟨h0, h1, rfl⟩
  · rw [discharge_step_of_pos s p t h]
    have hpos : 0 < discharge_amount s := not_le.mp h
    have hle : discharge_amount s ≤ s.energy_level := min_le_right _ _
    refine ⟨?_, ?_, rfl⟩
    · dsimp only
      linarith
    · dsimp only
      linarith

lemma applyOp_bounds (s : EnergyStorage) (op : Op)
    (h0 : 0 ≤ s.energy_level) (h1 : s.energy_level ≤ s.capacity) :
    0 ≤ (applyOp s op).energy_level ∧
      (applyOp s op).energy_level ≤ (applyOp s op).capacity ∧
      (applyOp s op).capacity = s.capacity := by
  cases op with
  | startCharging p t =>
    simp only [applyOp, start_charging]
    split_ifs with hbusy hfull
    · exact ⟨h0, h1, rfl⟩
    · exact ⟨h0, h1, rfl⟩
    · exact charge_step_bounds _ p t h0 h1
  | startDischarging p t =>
    simp only [applyOp, start_discharging]
    split_ifs with hbusy hempty
    · exact ⟨h0, h1, rfl⟩
    · exact ⟨h0, h1, rfl⟩
    · exact discharge_step_bounds _ p t h0 h1
  | continueProcess t =>
    simp only [applyOp, continue_process]
    split_ifs with hc hd
    · exact charge_step_bounds _ _ t h0 h1
    · exact discharge_step_bounds _ _ t h0 h1
    · exact ⟨h0, h1, rfl⟩
  | resetDaily => exact ⟨h0, h1, rfl⟩
  | clearChargingFlag => exact ⟨h0, h1, rfl⟩
  | clearDischargingFlag => exact ⟨h0, h1, rfl⟩

lemma runOps_bounds (ops : List Op) (s : EnergyStorage)
    (h0 : 0 ≤ s.energy_level) (h1 : s.energy_level ≤ s.capacity) :
    0 ≤ (runOps s ops).energy_level ∧
      (runOps s ops).energy_level ≤ (runOps s ops).capacity ∧
      (runOps s ops).capacity = s.capacity := by
  induction ops generalizing s with
  | nil => exact ⟨h0, h1, rfl⟩
  | cons op rest ih =>
    have h := applyOp_bounds s op h0 h1
    have hr := ih (applyOp s op) h.1 h.2.1
    exact ⟨hr.1, hr.2.1, hr.2.2.trans h.2.2⟩

lemma charge_step_is_discharging (s : EnergyStorage) (p : ℚ) (t : ℕ) :
    ((charge_step s p t).2).is_discharging = s.is_discharging := by
  by_cases h : charge_amount s ≤ 0
  · rw [charge_step_of_nonpos s p t h]
  · rw [charge_step_of_pos s p t h]

lemma charge_step_is_charging_imp (s : EnergyStorage) (p : ℚ) (t : ℕ)
    (h : ((charge_step s p t).2).is_charging = true) : s.is_charging = true := by
  by_cases hc : charge_amount s ≤ 0
  · rw [charge_step_of_nonpos s p t hc] at h
    exact absurd h (by simp)
  · rw [charge_step_of_pos s p t hc] at h
    exact h

lemma discharge_step_is_charging (s : EnergyStorage) (p : ℚ) (t : ℕ) :
    ((discharge_step s p t).2).is_charging = s.is_charging := by
  by_cases h : discharge_amount s ≤ 0
  · rw [discharge_step_of_nonpos s p t h]
  · rw [discharge_step_of_pos s p t h]

lemma applyOp_notBoth (s : EnergyStorage) (op : Op) (h : NotBothModes s) :
    NotBothModes (applyOp s op) := by
  cases op with
  | startCharging p t =>
    simp only [applyOp, start_charging]
    split_ifs with hbusy hfull
    · exact h
    · exact h
    · simp only [Bool.or_eq_true, not_or] at hbusy
      refine Or.inr ?_
      rw [charge_step_is_discharging]
      exact Bool.not_eq_true _ ▸ Bool.eq_false_iff.mpr hbusy.2
  | startDischarging p t =>
    simp only [applyOp, start_discharging]
    split_ifs with hbusy hempty
    · exact h
    · exact h
    · simp only [Bool.or_eq_true, not_or] at hbusy
      refine Or.inl ?_
      rw [discharge_step_is_charging]
      exact Bool.eq_false_iff.mpr hbusy.1
  | continueProcess t =>
    simp only [applyOp, continue_process]
    split_ifs with hc hd
    · cases h with
      | inl hcf => exact absurd hc (by simp [hcf])
      | inr hdf =>
        refine Or.inr ?_
        rw [charge_step_is_discharging]
        exact hdf
    · refine Or.inl ?_
      rw [discharge_step_is_charging]
      exact Bool.eq_false_iff.mpr hc
    · exact h
  | resetDaily => exact Or.inl rfl
  | clearChargingFlag => exact Or.inl rfl
  | clearDischargingFlag => exact Or.inr rfl

lemma runOps_notBoth (ops : List Op) (s : EnergyStorage)
    (h : NotBothModes s) : NotBothModes (runOps s ops) := by
  induction ops generalizing s with
  | nil => exact h
  | cons op rest ih => exact ih (applyOp s op) (applyOp_notBoth s op h)

lemma charge_step_cashInv (s : EnergyStorage) (p : ℚ) (t : ℕ)
    (h : CashInv s) : CashInv ((charge_step s p t).2) := by
  by_cases hc : charge_amount s ≤ 0
  · rw [charge_step_of_nonpos s p t hc]
    exact h
  · rw [charge_step_of_pos s p t hc]
    unfold CashInv at h ⊢
    dsimp only
    linarith

lemma discharge_step_cashInv (s : EnergyStorage) (p : ℚ) (t : ℕ)
    (h : CashInv s) : CashInv ((discharge_step s p t).2) := by
  by_cases hc : discharge_amount s ≤ 0
  · rw [discharge_step_of_nonpos s p t hc]
    exact h
  · rw [discharge_step_of_pos s p t hc]
    unfold CashInv at h ⊢
    dsimp only
    linarith

lemma applyOp_cashInv (s : EnergyStorage) (op : Op) (h : CashInv s) :
    CashInv (applyOp s op) := by
  cases op with
  | startCharging p t =>
    simp only [applyOp, start_charging]
    split_ifs with hbusy hfull
    · exact h
    · exact h
    · exact charge_step_cashInv _ p t h
  | startDischarging p t =>
    simp only [applyOp, start_discharging]
    split_ifs with hbusy hempty
    · exact h
    · exact h
    · exact discharge_step_cashInv _ p t h
  | continueProcess t =>
    simp only [applyOp, continue_process]
    split_ifs with hc hd
    · exact charge_step_cashInv _ _ t h
    · exact discharge_step_cashInv _ _ t h
    · exact h
  | resetDaily => exact h
  | clearChargingFlag => exact h
  | clearDischargingFlag => exact h

lemma runOps_cashInv (ops : List Op) (s : EnergyStorage) (h : CashInv s) :
    CashInv (runOps s ops) := by
  induction ops generalizing s with
  | nil => exact h
  | cons op rest ih => exact ih (applyOp s op) (applyOp_cashInv s op h)

lemma dischargeCycleSum_append (ts : List Transaction) (tx : Transaction)
    (cap : ℚ) :
    dischargeCycleSum (ts ++ [tx]) cap =
      dischargeCycleSum ts cap + cycleContrib cap tx := by
  simp [dischargeCycleSum]

lemma charge_step_cycInv (s : EnergyStorage) (p : ℚ) (t : ℕ)
    (h : CycInv s) : CycInv ((charge_step s p t).2) := by
  by_cases hc : charge_amount s ≤ 0
  · rw [charge_step_of_nonpos s p t hc]
    exact h
  · rw [charge_step_of_pos s p t hc]
    unfold CycInv at h ⊢
    dsimp only
    rw [dischargeCycleSum_append, h]
    simp [cycleContrib]

lemma discharge_step_cycInv (s : EnergyStorage) (p : ℚ) (t : ℕ)
    (h : CycInv s) : CycInv ((discharge_step s p t).2) := by
  by_cases hc : discharge_amount s ≤ 0
  · rw [discharge_step_of_nonpos s p t hc]
    exact h
  · rw [discharge_step_of_pos s p t hc]
    unfold CycInv at h ⊢
    dsimp only
    rw [dischargeCycleSum_append, h]
    simp [cycleContrib]

lemma applyOp_cycInv (s : EnergyStorage) (op : Op) (h : CycInv s) :
    CycInv (applyOp s op) := by
  cases op with
  | startCharging p t =>
    simp only [applyOp, start_charging]
    split_ifs with hbusy hfull
    · exact h
    · exact h
    · exact charge_step_cycInv _ p t h
  | startDischarging p t =>
    simp only [applyOp, start_discharging]
    split_ifs with hbusy hempty
    · exact h
    · exact h
    · exact discharge_step_cycInv _ p t h
  | continueProcess t =>
    simp only [applyOp, continue_process]
    split_ifs with hc hd
    · exact charge_step_cycInv _ _ t h
    · exact discharge_step_cycInv _ _ t h
    · exact h
  | resetDaily =>
    unfold CycInv
    simp [applyOp, reset_daily_transactions, dischargeCycleSum]
  | clearChargingFlag => exact h
  | clearDischargingFlag => exact h

lemma runOps_cycInv (ops : List Op) (s : EnergyStorage) (h : CycInv s) :
    CycInv (runOps s ops) := by
  induction ops generalizing s with
  | nil => exact h
  | cons op rest ih => exact ih (applyOp s op) (applyOp_cycInv s op h)

lemma charge_step_cycles (s : EnergyStorage) (p : ℚ) (t : ℕ) :
    ((charge_step s p t).2).daily_cycles = s.daily_cycles ∧
      ((charge_step s p t).2).total_cycles = s.total_cycles := by
  by_cases hc : charge_amount s ≤ 0
  · rw [charge_step_of_nonpos s p t hc]
    exact ⟨rfl, rfl⟩
  · rw [charge_step_of_pos s p t hc]
    exact ⟨rfl, rfl⟩

lemma discharge_step_totalDaily (s : EnergyStorage) (p : ℚ) (t : ℕ) :
    ((discharge_step s p t).2).total_cycles -
        ((discharge_step s p t).2).daily_cycles =
      s.total_cycles - s.daily_cycles := by
  by_cases hc : discharge_amount s ≤ 0
  · rw [discharge_step_of_nonpos s p t hc]
  · rw [discharge_step_of_pos s p t hc]
    dsimp only
    ring

lemma applyOp_totalDaily (s : EnergyStorage) (op : Op)
    (hop : op ≠ Op.resetDaily) :
    (applyOp s op).total_cycles - (applyOp s op).daily_cycles =
      s.total_cycles - s.daily_cycles := by
  cases op with
  | startCharging p t =>
    simp only [applyOp, start_charging]
    split_ifs with hbusy hfull
    · rfl
    · rfl
    · rw [(charge_step_cycles _ p t).1, (charge_step_cycles _ p t).2]
  | startDischarging p t =>
    simp only [applyOp, start_discharging]
    split_ifs with hbusy hempty
    · rfl
    · rfl
    · exact discharge_step_totalDaily _ p t
  | continueProcess t =>
    simp only [applyOp, continue_process]
    split_ifs with hc hd
    · rw [(charge_step_cycles _ _ t).1, (charge_step_cycles _ _ t).2]
    · exact discharge_step_totalDaily _ _ t
    · rfl
  | resetDaily => exact absurd rfl hop
  | clearChargingFlag => rfl
  | clearDischargingFlag => rfl

lemma runOps_totalDaily (ops : List Op) (s : EnergyStorage)
    (h : Op.resetDaily ∉ ops) :
    (runOps s ops).total_cycles - (runOps s ops).daily_cycles =
      s.total_cycles - s.daily_cycles := by
  induction ops generalizing s with
  | nil => rfl
  | cons op rest ih =>
    have hop : op ≠ Op.resetDaily := fun he => h (he ▸ List.mem_cons_self _ _)
    have hrest : Op.resetDaily ∉ rest := fun hm => h (List.mem_cons_of_mem _ hm)
    calc (runOps s (op :: rest)).total_cycles -
          (runOps s (op :: rest)).daily_cycles
        = (applyOp s op).total_cycles - (applyOp s op).daily_cycles :=
          ih (applyOp s op) hrest
      _ = s.total_cycles - s.daily_cycles := applyOp_totalDaily s op hop

/-! Branch lemmas for `engineStep`: one per path through the loop body. -/

lemma engineStep_decision_hold (pr : List ℚ) (W : ℕ) (e : EngineState)
    (hidx : e.idx < pr.length)
    (hnc : e.storage.is_charging = false)
    (hnd : e.storage.is_discharging = false)
    (hct : ¬ charge_trigger pr W e.idx e.storage e.last_charge_price)
    (hdt : ¬ discharge_trigger pr W e.idx e.storage e.last_discharge_price) :
    engineStep pr W e = { e with
      energy_history := e.energy_history ++
        [{ time_index := e.idx
           energy_level := e.storage.energy_level
           action := 0 }]
      current_price_var := some (pr.getD e.idx 0)
      idx := e.idx + 1 } := by
  simp only [engineStep]
  rw [if_pos hidx, if_neg (by simp [is_processing, hnc, hnd])]
  simp only [hnc, hnd, Bool.false_eq_true, ite_false]
  by_cases hw : 1 ≤ min W (pr.length - e.idx)
  · rw [if_pos hw, if_neg hct, if_neg hdt]
  · rw [if_neg hw]

lemma engineStep_decision_charge (pr : List ℚ) (W : ℕ) (e : EngineState)
    (hidx : e.idx < pr.length)
    (hnc : e.storage.is_charging = false)
    (hnd : e.storage.is_discharging = false)
    (hwin : 1 ≤ min W (pr.length - e.idx))
    (hct : charge_trigger pr W e.idx e.storage e.last_charge_price) :
    engineStep pr W e = { e with
      energy_history := e.energy_history ++
        [{ time_index := e.idx
           energy_level := e.storage.energy_level
           action := 0 }]
      current_price_var := some (pr.getD e.idx 0)
      charge_target := some (min (e.storage.energy_level +
        charge_target_amount pr W e.idx e.storage) e.storage.capacity)
      last_charge_price := some (pr.getD e.idx 0)
      current_operation_price := some (pr.getD e.idx 0)
      storage := (start_charging e.storage (pr.getD e.idx 0) e.idx).2
      last_discharge_price := 0
      idx := e.idx + 1 } := by
  simp only [engineStep]
  rw [if_pos hidx, if_neg (by simp [is_processing, hnc, hnd])]
  simp only [hnc, hnd, Bool.false_eq_true, ite_false]
  rw [if_pos hwin, if_pos hct]

lemma engineStep_decision_discharge (pr : List ℚ) (W : ℕ) (e : EngineState)
    (hidx : e.idx < pr.length)
    (hnc : e.storage.is_charging = false)
    (hnd : e.storage.is_discharging = false)
    (hwin : 1 ≤ min W (pr.length - e.idx))
    (hct : ¬ charge_trigger pr W e.idx e.storage e.last_charge_price)
    (hdt : discharge_trigger pr W e.idx e.storage e.last_discharge_price) :
    engineStep pr W e = { e with
      energy_history := e.energy_history ++
        [{ time_index := e.idx
           energy_level := e.storage.energy_level
           action := 0 }]
      current_price_var := some (pr.getD e.idx 0)
      discharge_target := some (max (e.storage.energy_level -
        discharge_target_amount pr W e.idx e.storage) 0)
      current_operation_price := some (pr.getD e.idx 0)
      last_discharge_price := pr.getD e.idx 0
      last_charge_price := none
      storage := (start_discharging e.storage (pr.getD e.idx 0) e.idx).2
      idx := e.idx + 1 } := by
  simp only [engineStep]
  rw [if_pos hidx, if_neg (by simp [is_processing, hnc, hnd])]
  simp only [hnc, hnd, Bool.false_eq_true, ite_false]
  rw [if_pos hwin, if_neg hct, if_pos hdt]

lemma engineStep_charging_cont (pr : List ℚ) (W : ℕ) (e : EngineState)
    (tgt : ℚ) (hidx : e.idx < pr.length)
    (hic : e.storage.is_charging = true)
    (htg : e.charge_target = some tgt)
    (hfar : ¬ (tgt - 1/10 ≤ e.storage.energy_level)) :
    engineStep pr W e = { e with
      energy_history := e.energy_history ++
        [{ time_index := e.idx
           energy_level := e.storage.energy_level
           action := 1 }]
      storage := (continue_process e.storage e.idx).2
      idx := e.idx + 1 } := by
  simp only [engineStep]
  rw [if_pos hidx, if_pos (by simp [is_processing, hic])]
  simp only [hic, htg, Option.isSome_some, Bool.true_and,
    eq_self_iff_true, ite_true, Option.getD_some]
  rw [if_neg hfar]

lemma engineStep_charging_reached (pr : List ℚ) (W : ℕ) (e : EngineState)
    (tgt : ℚ) (hidx : e.idx < pr.length)
    (hic : e.storage.is_charging = true)
    (htg : e.charge_target = some tgt)
    (hnear : tgt - 1/10 ≤ e.storage.energy_level) :
    engineStep pr W e = { e with
      energy_history := e.energy_history ++
        [{ time_index := e.idx
           energy_level := e.storage.energy_level
           action := 1 }]
      storage := { e.storage with is_charging := false }
      charge_target := none
      current_operation_price := none
      idx := e.idx + 1 } := by
  simp only [engineStep]
  rw [if_pos hidx, if_pos (by simp [is_processing, hic])]
  simp only [hic, htg, Option.isSome_some, Bool.true_and,
    eq_self_iff_true, ite_true, Option.getD_some]
  rw [if_pos hnear]

lemma engineStep_discharging_cont (pr : List ℚ) (W : ℕ) (e : EngineState)
    (tgt : ℚ) (hidx : e.idx < pr.length)
    (hic : e.storage.is_charging = false)
    (hid : e.storage.is_discharging = true)
    (htg : e.discharge_target = some tgt)
    (hfar : ¬ (e.storage.energy_level ≤ tgt + 1/10)) :
    engineStep pr W e = { e with
      energy_history := e.energy_history ++
        [{ time_index := e.idx
           energy_level := e.storage.energy_level
           action := -1 }]
      storage := (continue_process e.storage e.idx).2
      idx := e.idx + 1 } := by
  simp only [engineStep]
  rw [if_pos hidx, if_pos (by simp [is_processing, hid])]
  simp only [hic, hid, htg, Option.isSome_some, Bool.true_and,
    Bool.false_and, Bool.false_eq_true, eq_self_iff_true, ite_true,
    ite_false, Option.getD_some]
  rw [if_neg hfar]

lemma engineStep_discharging_reached (pr : List ℚ) (W : ℕ) (e : EngineState)
    (tgt : ℚ) (hidx : e.idx < pr.length)
    (hic : e.storage.is_charging = false)
    (hid : e.storage.is_discharging = true)
    (htg : e.discharge_target = some tgt)
    (hnear : e.storage.energy_level ≤ tgt + 1/10) :
    engineStep pr W e = { e with
      energy_history := e.energy_history ++
        [{ time_index := e.idx
           energy_level := e.storage.energy_level
           action := -1 }]
      storage := { e.storage with is_discharging := false }
      discharge_target := none
      current_operation_price := none
      last_discharge_price := e.current_price_var.getD 0
      last_charge_price := none
      idx := e.idx + 1 } := by
  simp only [engineStep]
  rw [if_pos hidx, if_pos (by simp [is_processing, hid])]
  simp only [hic, hid, htg, Option.isSome_some, Bool.true_and,
    Bool.false_and, Bool.false_eq_true, eq_self_iff_true, ite_true,
    ite_false, Option.getD_some]
  rw [if_pos hnear]

/-! Flat-window lemmas: on a constant window every percentile and the
mean equal the constant, so neither trigger can fire. -/

lemma insertAsc_replicate_self (n : ℕ) (x : ℚ) :
    insertAsc x (List.replicate n x) = List.replicate (n + 1) x := by
  induction n with
  | zero => rfl
  | succ n ih =>
    simp only [List.replicate_succ, insertAsc, if_pos (le_refl x)]

lemma sortAsc_replicate (n : ℕ) (x : ℚ) :
    sortAsc (List.replicate n x) = List.replicate n x := by
  induction n with
  | zero => rfl
  | succ n ih =>
    have : sortAsc (List.replicate (n + 1) x) =
        insertAsc x (sortAsc (List.replicate n x)) := rfl
    rw [this, ih, insertAsc_replicate_self]

lemma getD_replicate_lt (n i : ℕ) (x d : ℚ) (h : i < n) :
    (List.replicate n x).getD i d = x := by
  simp [List.getD, List.getElem?_replicate, h]

lemma percentile_replicate (k : ℕ) (x : ℚ) (p : ℕ) (hk : 1 ≤ k)
    (hp : p ≤ 100) : percentile (List.replicate k x) p = x := by
  simp only [percentile, sortAsc_replicate, List.length_replicate]
  have hi : p * (k - 1) / 100 < k := by
    have h1 : p * (k - 1) ≤ 100 * (k - 1) :=
      Nat.mul_le_mul_right _ hp
    have h2 : p * (k - 1) / 100 ≤ 100 * (k - 1) / 100 :=
      Nat.div_le_div_right h1
    have h3 : 100 * (k - 1) / 100 = k - 1 :=
      Nat.mul_div_cancel_left _ (by omega)
    omega
  rw [getD_replicate_lt _ _ _ _ hi]
  by_cases h2 : p * (k - 1) / 100 + 1 < k
  · rw [getD_replicate_lt _ _ _ _ h2]
    ring
  · rw [List.getD_eq_default]
    · ring
    · simpa using by omega

lemma listMean_replicate (k : ℕ) (x : ℚ) (hk : 1 ≤ k) :
    listMean (List.replicate k x) = x := by
  simp only [listMean, List.sum_replicate, List.length_replicate,
    nsmul_eq_mul]
  have hne : (k : ℚ) ≠ 0 := Nat.cast_ne_zero.mpr (by omega)
  exact mul_div_cancel_left₀ x hne

lemma flat_window_no_trigger (pr : List ℚ) (W idx k : ℕ) (x : ℚ)
    (s : EnergyStorage) (lcp : Option ℚ) (ldp : ℚ)
    (hpr : pr.getD idx 0 = x)
    (hfut : future_prices pr W idx = List.replicate k x)
    (hk : 1 ≤ k) :
    ¬ charge_trigger pr W idx s lcp ∧
      ¬ discharge_trigger pr W idx s ldp := by
  constructor
  · intro h
    simp only [charge_trigger] at h
    obtain ⟨-, h2, -, -, -⟩ := h
    rw [hpr, hfut, percentile_replicate k x 20 hk (by omega)] at h2
    exact lt_irrefl x h2
  · intro h
    simp only [discharge_trigger] at h
    obtain ⟨-, h2, -, -, -⟩ := h
    rw [hpr, hfut, percentile_replicate k x 80 hk (by omega)] at h2
    exact lt_irrefl x h2

lemma eFlat_step (n : ℕ) (hn : n < 10) :
    engineStep prFlat ROLLING_WINDOW_SIZE (eFlat n) = eFlat (n + 1) := by
  have hpr : prFlat.getD n 0 = 50 := getD_replicate_lt 10 n 50 0 hn
  have hpr2 : prFlat[n]?.getD 0 = 50 := by simpa [List.getD] using hpr
  have hfut : future_prices prFlat ROLLING_WINDOW_SIZE n =
      List.replicate (min 6 (10 - n)) 50 := by
    simp only [future_prices, prFlat, ROLLING_WINDOW_SIZE,
      List.length_replicate, List.drop_replicate, List.take_replicate]
    congr 1
    omega
  have hnt := flat_window_no_trigger prFlat ROLLING_WINDOW_SIZE n
    (min 6 (10 - n)) 50 (eFlat n).storage (eFlat n).last_charge_price
    (eFlat n).last_discharge_price hpr hfut (by omega)
  rw [engineStep_decision_hold prFlat ROLLING_WINDOW_SIZE (eFlat n)
    (by simpa [eFlat, prFlat] using hn) rfl rfl hnt.1 hnt.2]
  simp [eFlat, flatHistory, List.range_succ, hpr, hpr2, stFlat, mkStorage,
    mkEngineState, Nat.succ_ne_zero]

lemma eFlat_iterate (n : ℕ) (hn : n ≤ 10) :
    (engineStep prFlat ROLLING_WINDOW_SIZE)^[n] (mkEngineState stFlat) =
      eFlat n := by
  induction n with
  | zero =>
    simp [eFlat, mkEngineState, flatHistory]
  | succ n ih =>
    rw [Function.iterate_succ_apply', ih (by omega),
      eFlat_step n (by omega)]

/-! C4 scenario: the charge decision fires at index 0, the step amount
computes to 0 (C-rate 0), the start call fails — and the engine leaves
its target tracking set for the rest of the run. -/

lemma chargeTriggerC4 :
    charge_trigger pricesC4 ROLLING_WINDOW_SIZE 0 stC4 none := by
  refine ⟨?_, ?_, ?_, ?_, ?_⟩
  · norm_num [stC4, mkStorage]
  · norm_num [future_prices, pricesC4, ROLLING_WINDOW_SIZE, percentile,
      sortAsc, insertAsc]
  · norm_num [future_prices, pricesC4, ROLLING_WINDOW_SIZE, listMean]
  · simp
  · norm_num [charge_target_amount, future_prices, pricesC4,
      ROLLING_WINDOW_SIZE, percentile, sortAsc, insertAsc, stC4, mkStorage]

lemma engineRunC4_one : engineRunC4 1 = e4one := by
  have h := engineStep_decision_charge pricesC4 ROLLING_WINDOW_SIZE
    (mkEngineState stC4) (by norm_num [mkEngineState, pricesC4]) rfl rfl
    (by norm_num [mkEngineState, pricesC4, ROLLING_WINDOW_SIZE])
    chargeTriggerC4
  have h0 : engineRunC4 1 =
      engineStep pricesC4 ROLLING_WINDOW_SIZE (mkEngineState stC4) := rfl
  rw [h0, h]
  norm_num [e4one, mkEngineState, stC4, mkStorage, pricesC4, List.getD,
    start_charging, charge_step, charge_amount, charge_target_amount,
    future_prices, ROLLING_WINDOW_SIZE, percentile, sortAsc, insertAsc,
    min_def]

lemma e4_hold_step (n : ℕ) (h2 : 2 ≤ n) (h6 : n < 6)
    (hfut : future_prices pricesC4 ROLLING_WINDOW_SIZE n =
      List.replicate (6 - n) 50)
    (hpr : pricesC4.getD n 0 = 50) :
    engineStep pricesC4 ROLLING_WINDOW_SIZE (e4n n) = e4n (n + 1) := by
  have hnt := flat_window_no_trigger pricesC4 ROLLING_WINDOW_SIZE n
    (6 - n) 50 (e4n n).storage (e4n n).last_charge_price
    (e4n n).last_discharge_price hpr hfut (by omega)
  rw [engineStep_decision_hold pricesC4 ROLLING_WINDOW_SIZE (e4n n)
    (by simpa [e4n, e4one, mkEngineState, pricesC4] using h6) rfl rfl
    hnt.1 hnt.2]
  have hpr2 : pricesC4[n]?.getD 0 = 50 := by simpa [List.getD] using hpr
  simp [e4n, e4one, mkEngineState, stC4, mkStorage, List.range_succ, hpr2]

lemma engineRunC4_six : engineRunC4 6 = e4n 6 := by
  have h1 : engineStep pricesC4 ROLLING_WINDOW_SIZE e4one = e4n 2 := by
    have hnt := flat_window_no_trigger pricesC4 ROLLING_WINDOW_SIZE 1
      5 50 e4one.storage e4one.last_charge_price
      e4one.last_discharge_price rfl rfl (by omega)
    rw [engineStep_decision_hold pricesC4 ROLLING_WINDOW_SIZE e4one
      (by norm_num [e4one, mkEngineState, pricesC4]) rfl rfl hnt.1 hnt.2]
    simp [e4n, e4one, mkEngineState, stC4, mkStorage, List.range_succ,
      pricesC4]
  have h2 := e4_hold_step 2 (by omega) (by omega) rfl rfl
  have h3 := e4_hold_step 3 (by omega) (by omega) rfl rfl
  have h4 := e4_hold_step 4 (by omega) (by omega) rfl rfl
  have h5 := e4_hold_step 5 (by omega) (by omega) rfl rfl
  have hs : ∀ m, engineRunC4 (m + 1) =
      engineStep pricesC4 ROLLING_WINDOW_SIZE (engineRunC4 m) :=
    fun m => Function.iterate_succ_apply' _ m _
  rw [hs 5, hs 4, hs 3, hs 2, hs 1, engineRunC4_one, h1, h2, h3, h4, h5]

/-! C7 scenario: a discharge started at price 100 completes three steps
later at index 3, where the price is 10; the completion records the
stale decision price 100. -/

lemma continue_discharge_eval (s : EnergyStorage) (t : ℕ)
    (hic : s.is_charging = false) (hid : s.is_discharging = true)
    (hpos : ¬ discharge_amount s ≤ 0) :
    (continue_process s t).2.is_charging = false ∧
    (continue_process s t).2.is_discharging = true ∧
    (continue_process s t).2.energy_level =
      s.energy_level - discharge_amount s ∧
    (continue_process s t).2.max_power = s.max_power ∧
    (continue_process s t).2.discharging_price = s.discharging_price := by
  unfold continue_process
  rw [if_neg (by simp [hic]), if_pos (by simp [hid])]
  rw [discharge_step_of_pos _ _ _
    (show ¬ discharge_amount
        { s with current_interval := s.current_interval + 1 } ≤ 0
      from hpos)]
  exact ⟨hic, hid, rfl, rfl, rfl⟩

lemma st7b_props :
    st7b.is_charging = false ∧ st7b.is_discharging = true ∧
    st7b.energy_level = 3/4 ∧ st7b.max_power = 1 ∧
    st7b.discharging_price = 100 := by
  have h : start_discharging stC7 100 0 =
      discharge_step { stC7 with
        is_discharging := true
        discharging_price := 100
        charging_start_index := ((0:ℕ) : ℤ)
        current_interval := 0 } 100 0 := by
    unfold start_discharging
    rw [if_neg (by simp [stC7, mkStorage]),
      if_neg (by norm_num [stC7, mkStorage])]
  have hpos : ¬ discharge_amount { stC7 with
      is_discharging := true
      discharging_price := 100
      charging_start_index := ((0:ℕ) : ℤ)
      current_interval := 0 } ≤ 0 := by
    norm_num [discharge_amount, stC7, mkStorage, min_def]
  unfold st7b
  rw [h, discharge_step_of_pos _ _ _ hpos]
  refine ⟨?_, ?_, ?_, ?_, ?_⟩
  · rfl
  · rfl
  · norm_num [discharge_amount, stC7, mkStorage, min_def]
  · norm_num [stC7, mkStorage]
  · rfl

lemma st7b_amount : ¬ discharge_amount st7b ≤ 0 := by
  rw [show discharge_amount st7b =
    min (st7b.max_power * (1/4)) st7b.energy_level from rfl,
    st7b_props.2.2.2.1, st7b_props.2.2.1]
  norm_num [min_def]

lemma st7c_props :
    st7c.is_charging = false ∧ st7c.is_discharging = true ∧
    st7c.energy_level = 1/2 ∧ st7c.max_power = 1 ∧
    st7c.discharging_price = 100 := by
  have h := continue_discharge_eval st7b 1 st7b_props.1 st7b_props.2.1
    st7b_amount
  have hamt : discharge_amount st7b = 1/4 := by
    rw [show discharge_amount st7b =
      min (st7b.max_power * (1/4)) st7b.energy_level from rfl,
      st7b_props.2.2.2.1, st7b_props.2.2.1]
    norm_num [min_def]
  refine ⟨h.1, h.2.1, ?_, ?_, ?_⟩
  · rw [show st7c.energy_level = (continue_process st7b 1).2.energy_level
      from rfl, h.2.2.1, st7b_props.2.2.1, hamt]
    norm_num
  · rw [show st7c.max_power = (continue_process st7b 1).2.max_power
      from rfl, h.2.2.2.1, st7b_props.2.2.2.1]
  · rw [show st7c.discharging_price =
      (continue_process st7b 1).2.discharging_price from rfl,
      h.2.2.2.2, st7b_props.2.2.2.2]

lemma st7c_amount : ¬ discharge_amount st7c ≤ 0 := by
  rw [show discharge_amount st7c =
    min (st7c.max_power * (1/4)) st7c.energy_level from rfl,
    st7c_props.2.2.2.1, st7c_props.2.2.1]
  norm_num [min_def]

lemma st7d_props :
    st7d.is_charging = false ∧ st7d.is_discharging = true ∧
    st7d.energy_level = 1/4 := by
  have h := continue_discharge_eval st7c 2 st7c_props.1 st7c_props.2.1
    st7c_amount
  have hamt : discharge_amount st7c = 1/4 := by
    rw [show discharge_amount st7c =
      min (st7c.max_power * (1/4)) st7c.energy_level from rfl,
      st7c_props.2.2.2.1, st7c_props.2.2.1]
    norm_num [min_def]
  refine ⟨h.1, h.2.1, ?_⟩
  rw [show st7d.energy_level = (continue_process st7c 2).2.energy_level
    from rfl, h.2.2.1, st7c_props.2.2.1, hamt]
  norm_num

lemma chargeTriggerC7_false :
    ¬ charge_trigger pricesC7 ROLLING_WINDOW_SIZE 0 stC7 none := by
  intro h
  have h1 := h.1
  norm_num [stC7, mkStorage] at h1

lemma dischargeTriggerC7 :
    discharge_trigger pricesC7 ROLLING_WINDOW_SIZE 0 stC7 0 := by
  refine ⟨?_, ?_, ?_, Or.inr rfl, ?_⟩
  · norm_num [stC7, mkStorage]
  · norm_num [future_prices, pricesC7, ROLLING_WINDOW_SIZE, percentile,
      sortAsc, insertAsc]
  · norm_num [future_prices, pricesC7, ROLLING_WINDOW_SIZE, listMean]
  · norm_num [discharge_target_amount, future_prices, pricesC7,
      ROLLING_WINDOW_SIZE, percentile, sortAsc, insertAsc, stC7, mkStorage]

lemma engineRunC7_one_eq :
    engineStep pricesC7 ROLLING_WINDOW_SIZE (mkEngineState stC7) = e7a := by
  rw [engineStep_decision_discharge pricesC7 ROLLING_WINDOW_SIZE
    (mkEngineState stC7) (by norm_num [mkEngineState, pricesC7]) rfl rfl
    (by norm_num [mkEngineState, pricesC7, ROLLING_WINDOW_SIZE])
    chargeTriggerC7_false dischargeTriggerC7]
  norm_num [e7a, mkEngineState, stC7, mkStorage, pricesC7, List.getD,
    st7b, discharge_target_amount, future_prices, ROLLING_WINDOW_SIZE,
    percentile, sortAsc, insertAsc, max_def]

lemma engineRunC7_two_eq :
    engineStep pricesC7 ROLLING_WINDOW_SIZE e7a = e7b := by
  rw [engineStep_discharging_cont pricesC7 ROLLING_WINDOW_SIZE e7a (1/5)
    (by norm_num [e7a, pricesC7]) st7b_props.1 st7b_props.2.1 rfl
    (by rw [show e7a.storage.energy_level = st7b.energy_level from rfl,
        st7b_props.2.2.1]
        norm_num)]
  simp [e7a, e7b, st7c, st7b_props.2.2.1]

lemma engineRunC7_three_eq :
    engineStep pricesC7 ROLLING_WINDOW_SIZE e7b = e7c := by
  rw [engineStep_discharging_cont pricesC7 ROLLING_WINDOW_SIZE e7b (1/5)
    (by norm_num [e7b, e7a, pricesC7]) st7c_props.1 st7c_props.2.1 rfl
    (by rw [show e7b.storage.energy_level = st7c.energy_level from rfl,
        st7c_props.2.2.1]
        norm_num)]
  simp [e7a, e7b, e7c, st7d, st7c_props.2.2.1]

lemma engineRunC7_four_eq :
    engineStep pricesC7 ROLLING_WINDOW_SIZE e7c = e7d := by
  rw [engineStep_discharging_reached pricesC7 ROLLING_WINDOW_SIZE e7c (1/5)
    (by norm_num [e7c, e7b, e7a, pricesC7]) st7d_props.1 st7d_props.2.1 rfl
    (by rw [show e7c.storage.energy_level = st7d.energy_level from rfl,
        st7d_props.2.2]
        norm_num)]
  simp [e7a, e7b, e7c, e7d, st7d_props.2.2]

lemma engineRunC7_runs : engineRunC7 3 = e7c ∧ engineRunC7 4 = e7d := by
  have hs : ∀ m, engineRunC7 (m + 1) =
      engineStep pricesC7 ROLLING_WINDOW_SIZE (engineRunC7 m) :=
    fun m => Function.iterate_succ_apply' _ m _
  have h3 : engineRunC7 3 = e7c := by
    rw [hs 2, hs 1, hs 0,
      show engineRunC7 0 = mkEngineState stC7 from rfl,
      engineRunC7_one_eq, engineRunC7_two_eq, engineRunC7_three_eq]
  exact ⟨h3, by rw [hs 3, h3, engineRunC7_four_eq]⟩

/-! Claim theorems. -/

/-- C1: for every run of the simulation (storage created with
`capacity > 0` and `energy_level 0`, then any sequence of
`start_charging`, `start_discharging`, `continue_process`,
`reset_daily_transactions` calls, including the direct flag clears the
engine performs), the energy level satisfies
`0 ≤ energy_level ≤ capacity` after every operation. -/
theorem C1_energy_level_within_bounds (c r ef fee : ℚ) (h : 0 < c)
    (ops : List Op) :
    0 ≤ (runOps (mkStorage c r ef fee) ops).energy_level ∧
      (runOps (mkStorage c r ef fee) ops).energy_level ≤
        (runOps (mkStorage c r ef fee) ops).capacity := by
  have hb := runOps_bounds ops (mkStorage c r ef fee) (le_refl 0) (le_of_lt h)
  exact ⟨hb.1, hb.2.1⟩

/-- Witness for C1 at a concrete run. -/
theorem C1_energy_level_within_bounds_witness :
    (0:ℚ) < 1 ∧
      (0 ≤ (runOps (mkStorage 1 1 1 0)
          [Op.startCharging 10 0, Op.continueProcess 1]).energy_level ∧
        (runOps (mkStorage 1 1 1 0)
            [Op.startCharging 10 0, Op.continueProcess 1]).energy_level ≤
          (runOps (mkStorage 1 1 1 0)
            [Op.startCharging 10 0, Op.continueProcess 1]).capacity) :=
  ⟨by norm_num,
    C1_energy_level_within_bounds 1 1 1 0 (by norm_num)
      [Op.startCharging 10 0, Op.continueProcess 1]⟩

/-- C2: the storage is never simultaneously in Charging and Discharging
mode in any run; when either mode is active at call time,
`start_charging` and `start_discharging` return false without mutating
the state; `start_charging` also returns false with no state change when
`energy_level ≥ capacity`, and `start_discharging` when
`energy_level ≤ 0`. -/
theorem C2_mode_exclusion_and_guards :
    (∀ (c r ef fee : ℚ) (ops : List Op),
        (runOps (mkStorage c r ef fee) ops).is_charging = false ∨
          (runOps (mkStorage c r ef fee) ops).is_discharging = false) ∧
    (∀ (s : EnergyStorage) (p : ℚ) (t : ℕ),
        s.is_charging = true ∨ s.is_discharging = true →
          start_charging s p t = (false, s) ∧
            start_discharging s p t = (false, s)) ∧
    (∀ (s : EnergyStorage) (p : ℚ) (t : ℕ),
        s.capacity ≤ s.energy_level → start_charging s p t = (false, s)) ∧
    (∀ (s : EnergyStorage) (p : ℚ) (t : ℕ),
        s.energy_level ≤ 0 → start_discharging s p t = (false, s)) := by
  refine ⟨?_, ?_, ?_, ?_⟩
  · intro c r ef fee ops
    exact runOps_notBoth ops _ (Or.inl rfl)
  · intro s p t h
    have hb : (s.is_charging || s.is_discharging) = true := by
      rcases h with h | h <;> simp [h]
    constructor
    · unfold start_charging
      rw [if_pos hb]
    · unfold start_discharging
      rw [if_pos hb]
  · intro s p t h
    by_cases hb : (s.is_charging || s.is_discharging) = true
    · unfold start_charging
      rw [if_pos hb]
    · unfold start_charging
      rw [if_neg hb, if_pos h]
  · intro s p t h
    by_cases hb : (s.is_charging || s.is_discharging) = true
    · unfold start_discharging
      rw [if_pos hb]
    · unfold start_discharging
      rw [if_neg hb, if_pos h]

/-- Witness for C2 at concrete states: a busy storage, a full storage and
an empty storage. -/
theorem C2_mode_exclusion_and_guards_witness :
    (start_charging sBusyW 5 0 = (false, sBusyW) ∧
      start_discharging sBusyW 5 0 = (false, sBusyW)) ∧
    start_charging sFullW 5 0 = (false, sFullW) ∧
    start_discharging (mkStorage 1 1 1 0) 5 0 = (false, mkStorage 1 1 1 0) := by
  refine ⟨C2_mode_exclusion_and_guards.2.1 sBusyW 5 0 (Or.inl rfl),
    C2_mode_exclusion_and_guards.2.2.1 sFullW 5 0 ?_,
    C2_mode_exclusion_and_guards.2.2.2 (mkStorage 1 1 1 0) 5 0 ?_⟩
  · show (1:ℚ) ≤ 1
    norm_num
  · show (0:ℚ) ≤ 0
    norm_num

/-- C3: for every discharge step with positive transfer amount
`amount = min(maxPower·0.25, energyLevel)`: the step succeeds, the
appended transaction records `usableEnergy = amount·efficiency` and
`revenue = usableEnergy·price − usableEnergy·feePerMWh`, the energy level
drops by `amount`, cash rises by the revenue, both cycle counters rise by
`amount / capacity` (with `usableEnergy < amount` strictly when
`efficiency < 1`), and charge steps never change the cycle counters. -/
theorem C3_discharge_step_accounting (s : EnergyStorage) (price : ℚ) (t : ℕ)
    (h : 0 < discharge_amount s) :
    (discharge_step s price t).1 = true ∧
    ((discharge_step s price t).2).energy_level =
      s.energy_level - discharge_amount s ∧
    ((discharge_step s price t).2).cash = s.cash +
      (discharge_amount s * s.efficiency * price -
        discharge_amount s * s.efficiency * s.fee_per_mwh) ∧
    ((discharge_step s price t).2).daily_cycles =
      s.daily_cycles + discharge_amount s / s.capacity ∧
    ((discharge_step s price t).2).total_cycles =
      s.total_cycles + discharge_amount s / s.capacity ∧
    ((discharge_step s price t).2).transactions = s.transactions ++
      [Transaction.discharge (discharge_amount s)
        (discharge_amount s * s.efficiency)
        (discharge_amount s * (1 - s.efficiency)) price
        (discharge_amount s * price)
        (discharge_amount s * price * (1 - s.efficiency))
        (discharge_amount s * s.efficiency * price)
        (discharge_amount s * s.efficiency * s.fee_per_mwh)
        (discharge_amount s * s.efficiency * price -
          discharge_amount s * s.efficiency * s.fee_per_mwh)
        (s.energy_level - discharge_amount s) t s.current_interval] ∧
    (s.efficiency < 1 →
      discharge_amount s * s.efficiency < discharge_amount s) ∧
    (∀ (p2 : ℚ) (t2 : ℕ),
      ((charge_step s p2 t2).2).daily_cycles = s.daily_cycles ∧
        ((charge_step s p2 t2).2).total_cycles = s.total_cycles) := by
  have hn : ¬ discharge_amount s ≤ 0 := not_le.mpr h
  rw [discharge_step_of_pos s price t hn]
  exact ⟨rfl, rfl, rfl, rfl, rfl, rfl,
    fun heff => mul_lt_of_lt_one_right h heff,
    fun p2 t2 => charge_step_cycles s p2 t2⟩

/-- Witness for C3 at a half-efficiency storage holding 1 MWh. -/
theorem C3_discharge_step_accounting_witness :
    0 < discharge_amount sHalfEffW ∧
      (discharge_step sHalfEffW 40 2).1 = true ∧
      sHalfEffW.efficiency < 1 ∧
      discharge_amount sHalfEffW * sHalfEffW.efficiency <
        discharge_amount sHalfEffW := by
  have hpos : 0 < discharge_amount sHalfEffW := by
    norm_num [discharge_amount, sHalfEffW, mkStorage, min_def]
  have heff : sHalfEffW.efficiency < 1 := by
    norm_num [sHalfEffW, mkStorage]
  have h := C3_discharge_step_accounting sHalfEffW 40 2 hpos
  exact ⟨hpos, h.1, heff, h.2.2.2.2.2.2.1 heff⟩

/-- C6: `reset_daily_transactions` empties the transaction log, zeroes
the daily cycle counter and forces Idle mode, while leaving cash, the
energy level, the total cycle counter and all lifetime accumulators
unchanged. -/
theorem C6_reset_daily_frame (s : EnergyStorage) :
    (reset_daily_transactions s).transactions = [] ∧
    (reset_daily_transactions s).daily_cycles = 0 ∧
    (reset_daily_transactions s).is_charging = false ∧
    (reset_daily_transactions s).is_discharging = false ∧
    (reset_daily_transactions s).total_cycles = s.total_cycles ∧
    (reset_daily_transactions s).cash = s.cash ∧
    (reset_daily_transactions s).energy_level = s.energy_level ∧
    (reset_daily_transactions s).total_charged_energy =
      s.total_charged_energy ∧
    (reset_daily_transactions s).total_discharged_energy =
      s.total_discharged_energy ∧
    (reset_daily_transactions s).total_gross_energy = s.total_gross_energy ∧
    (reset_daily_transactions s).total_charge_cost = s.total_charge_cost ∧
    (reset_daily_transactions s).total_discharge_revenue =
      s.total_discharge_revenue ∧
    (reset_daily_transactions s).gross_energy_revenue =
      s.gross_energy_revenue ∧
    (reset_daily_transactions s).efficiency_losses = s.efficiency_losses ∧
    (reset_daily_transactions s).energy_losses = s.energy_losses :=
  ⟨rfl, rfl, rfl, rfl, rfl, rfl, rfl, rfl, rfl, rfl, rfl, rfl, rfl, rfl, rfl⟩

/-- C9: at every point during and after a run, cash equals
`total_discharge_revenue − total_charge_cost` (`get_total_profit`);
each step couples its cash change with the matching accumulator, and
`reset_daily_transactions` changes none of the three. -/
theorem C9_cash_equals_profit :
    (∀ (c r ef fee : ℚ) (ops : List Op),
        (runOps (mkStorage c r ef fee) ops).cash =
          get_total_profit (runOps (mkStorage c r ef fee) ops)) ∧
    (∀ (s : EnergyStorage) (p : ℚ) (t : ℕ),
        ((charge_step s p t).2).cash - s.cash =
            -(((charge_step s p t).2).total_charge_cost -
              s.total_charge_cost) ∧
          ((charge_step s p t).2).total_discharge_revenue =
            s.total_discharge_revenue) ∧
    (∀ (s : EnergyStorage) (p : ℚ) (t : ℕ),
        ((discharge_step s p t).2).cash - s.cash =
            ((discharge_step s p t).2).total_discharge_revenue -
              s.total_discharge_revenue ∧
          ((discharge_step s p t).2).total_charge_cost =
            s.total_charge_cost) ∧
    (∀ (s : EnergyStorage),
        (reset_daily_transactions s).cash = s.cash ∧
          (reset_daily_transactions s).total_charge_cost =
            s.total_charge_cost ∧
          (reset_daily_transactions s).total_discharge_revenue =
            s.total_discharge_revenue) := by
  refine ⟨?_, ?_, ?_, fun s => ⟨rfl, rfl, rfl⟩⟩
  · intro c r ef fee ops
    have h0 : CashInv (mkStorage c r ef fee) := (sub_zero (0:ℚ)).symm
    exact runOps_cashInv ops _ h0
  · intro s p t
    by_cases hc : charge_amount s ≤ 0
    · rw [charge_step_of_nonpos s p t hc]
      exact ⟨by ring, rfl⟩
    · rw [charge_step_of_pos s p t hc]
      exact ⟨by dsimp only; ring, rfl⟩
  · intro s p t
    by_cases hc : discharge_amount s ≤ 0
    · rw [discharge_step_of_nonpos s p t hc]
      exact ⟨by ring, rfl⟩
    · rw [discharge_step_of_pos s p t hc]
      exact ⟨by dsimp only; ring, rfl⟩

/-- C10: `continue_process` on an idle storage returns false but still
increments the step counter, so the state is mutated despite the error
return. -/
theorem C10_continue_process_idle (s : EnergyStorage) (t : ℕ)
    (h1 : s.is_charging = false) (h2 : s.is_discharging = false) :
    continue_process s t =
      (false, { s with current_interval := s.current_interval + 1 }) ∧
    ((continue_process s t).2).current_interval ≠ s.current_interval := by
  have hstep : continue_process s t =
      (false, { s with current_interval := s.current_interval + 1 }) := by
    simp [continue_process, h1, h2]
  refine ⟨hstep, ?_⟩
  rw [hstep]
  exact Nat.succ_ne_self s.current_interval

/-- C8: for a storage with capacity 1.0 MWh, C-rate 0.5, efficiency 0.85
and fee 0, and ten quarter-hour prices all equal to 50, the engine never
starts a charge or discharge operation: the returned energy history is
ten entries with action 0 and energy level 0, and the storage's
transaction log stays empty. -/
theorem C8_flat_prices_no_trades :
    (threshold_lookahead (List.replicate 10 50) (mkStorage 1 (1/2) (17/20) 0)
        ROLLING_WINDOW_SIZE).1.transactions = [] ∧
    (threshold_lookahead (List.replicate 10 50) (mkStorage 1 (1/2) (17/20) 0)
        ROLLING_WINDOW_SIZE).2 =
      (List.range 10).map
        (fun i => { time_index := i, energy_level := 0, action := 0 }) ∧
    (threshold_lookahead (List.replicate 10 50) (mkStorage 1 (1/2) (17/20) 0)
        ROLLING_WINDOW_SIZE).1.energy_level = 0 := by
  have hT : threshold_lookahead prFlat stFlat ROLLING_WINDOW_SIZE =
      ((eFlat 10).storage, (eFlat 10).energy_history) := by
    simp only [threshold_lookahead]
    rw [show prFlat.length = 10 from rfl, eFlat_iterate 10 (le_refl 10)]
  have hT2 : threshold_lookahead (List.replicate 10 50)
      (mkStorage 1 (1/2) (17/20) 0) ROLLING_WINDOW_SIZE =
      ((eFlat 10).storage, (eFlat 10).energy_history) := hT
  rw [hT2]
  exact ⟨rfl, rfl, rfl⟩

/-- C4 counterexample: in the C4 scenario (capacity 1, C-rate 0, prices
`[5, 50, 50, 50, 50, 50]`) the charge decision fires at index 0, the
charge step computes amount 0 ≤ 0, `start_charging` returns false and
the storage is Idle — but the engine's `charge_target` and
`current_operation_price` are still set one step later and remain set at
the end of the run: the engine does not detect the false return. -/
theorem C4_counterexample :
    charge_amount { stC4 with
      is_charging := true
      charging_price := 5
      charging_start_index := 0
      current_interval := 0 } ≤ 0 ∧
    (start_charging stC4 5 0).1 = false ∧
    (start_charging stC4 5 0).2.is_charging = false ∧
    (start_charging stC4 5 0).2.is_discharging = false ∧
    (engineRunC4 1).charge_target = some (4/5) ∧
    (engineRunC4 1).current_operation_price = some 5 ∧
    (engineRunC4 1).storage.is_charging = false ∧
    (engineRunC4 1).storage.is_discharging = false ∧
    (engineRunC4 6).charge_target = some (4/5) ∧
    (engineRunC4 6).current_operation_price = some 5 := by
  have hamt : charge_amount { stC4 with
      is_charging := true
      charging_price := 5
      charging_start_index := 0
      current_interval := 0 } ≤ 0 := by
    norm_num [charge_amount, stC4, mkStorage, min_def]
  have hsc : start_charging stC4 5 0 =
      (false, { stC4 with
        charging_price := 5
        charging_start_index := 0 }) := by
    norm_num [start_charging, charge_step, charge_amount, stC4, mkStorage,
      min_def]
  rw [engineRunC4_one, engineRunC4_six]
  exact ⟨hamt, by rw [hsc], by rw [hsc]; rfl, by rw [hsc]; rfl, rfl, rfl,
    rfl, rfl, rfl, rfl⟩

/-- C4 (amended): when a charge or discharge step computes its transfer
amount as ≤ 0, the step function returns false and clears the running
mode flag (so the storage, being in at most one mode, falls back to
Idle); the strategy engine, however, ignores the boolean result of its
`continue_process` calls: on every continue step the targets and the
operation price are carried over unchanged, whether or not the step
moved energy. -/
theorem C4_amended_exhausted_step :
    (∀ (s : EnergyStorage) (p : ℚ) (t : ℕ), charge_amount s ≤ 0 →
        charge_step s p t = (false, { s with is_charging := false })) ∧
    (∀ (s : EnergyStorage) (p : ℚ) (t : ℕ), discharge_amount s ≤ 0 →
        discharge_step s p t = (false, { s with is_discharging := false })) ∧
    (∀ (pr : List ℚ) (W : ℕ) (e : EngineState) (tgt : ℚ),
        e.idx < pr.length → e.storage.is_charging = true →
        e.charge_target = some tgt →
        ¬ (tgt - 1/10 ≤ e.storage.energy_level) →
        (engineStep pr W e).charge_target = e.charge_target ∧
          (engineStep pr W e).current_operation_price =
            e.current_operation_price) ∧
    (∀ (pr : List ℚ) (W : ℕ) (e : EngineState) (tgt : ℚ),
        e.idx < pr.length → e.storage.is_charging = false →
        e.storage.is_discharging = true →
        e.discharge_target = some tgt →
        ¬ (e.storage.energy_level ≤ tgt + 1/10) →
        (engineStep pr W e).discharge_target = e.discharge_target ∧
          (engineStep pr W e).current_operation_price =
            e.current_operation_price) := by
  refine ⟨fun s p t h => charge_step_of_nonpos s p t h,
    fun s p t h => discharge_step_of_nonpos s p t h, ?_, ?_⟩
  · intro pr W e tgt hidx hic htg hfar
    rw [engineStep_charging_cont pr W e tgt hidx hic htg hfar]
    exact ⟨rfl, rfl⟩
  · intro pr W e tgt hidx hic hid htg hfar
    rw [engineStep_discharging_cont pr W e tgt hidx hic hid htg hfar]
    exact ⟨rfl, rfl⟩

/-- Witness for the amended C4 claim: a 0-C-rate storage whose charge
step computes amount 0, and a mid-charge engine state whose next step
keeps the charge target and operation price. -/
theorem C4_amended_exhausted_step_witness :
    charge_amount { stC4 with is_charging := true } ≤ 0 ∧
    charge_step { stC4 with is_charging := true } 5 0 =
      (false,
        { { stC4 with is_charging := true } with is_charging := false }) ∧
    (engineStep [50] 6 eWC4).charge_target = eWC4.charge_target ∧
    (engineStep [50] 6 eWC4).current_operation_price =
      eWC4.current_operation_price := by
  have hamt : charge_amount { stC4 with is_charging := true } ≤ 0 := by
    norm_num [charge_amount, stC4, mkStorage, min_def]
  have hfar : ¬ ((1:ℚ) - 1/10 ≤ eWC4.storage.energy_level) := by
    norm_num [eWC4, mkEngineState, stC4, mkStorage]
  have h := C4_amended_exhausted_step
  exact ⟨hamt, h.1 _ 5 0 hamt,
    (h.2.2.1 [50] 6 eWC4 1 (by norm_num [eWC4, mkEngineState]) rfl rfl
      hfar).1,
    (h.2.2.1 [50] 6 eWC4 1 (by norm_num [eWC4, mkEngineState]) rfl rfl
      hfar).2⟩

/-- C5 counterexample: after a charge, a reset, a discharge and another
reset, the transaction log is empty, so the logged cycle fractions sum
to 0, while `totalCycles` is 1/4. -/
theorem C5_counterexample :
    dischargeCycleSum
        (runOps (mkStorage 1 1 1 0)
          [Op.startCharging 10 0, Op.resetDaily, Op.startDischarging 20 1,
            Op.resetDaily]).transactions
        (runOps (mkStorage 1 1 1 0)
          [Op.startCharging 10 0, Op.resetDaily, Op.startDischarging 20 1,
            Op.resetDaily]).capacity ≠
      (runOps (mkStorage 1 1 1 0)
        [Op.startCharging 10 0, Op.resetDaily, Op.startDischarging 20 1,
          Op.resetDaily]).total_cycles := by
  norm_num [runOps, applyOp, start_charging, start_discharging, charge_step,
    discharge_step, charge_amount, discharge_amount,
    reset_daily_transactions, mkStorage, dischargeCycleSum, cycleContrib,
    min_def]

/-- C5 (amended): at any point in a run, the sum over the discharge
transactions in the log of gross amount / capacity equals `dailyCycles`;
it equals `totalCycles` only as long as no `reset_daily_transactions`
call has occurred in the run (a reset clears the log and `dailyCycles`
but keeps `totalCycles`). -/
theorem C5_cycle_accounting (c r ef fee : ℚ) (ops : List Op) :
    dischargeCycleSum (runOps (mkStorage c r ef fee) ops).transactions
        (runOps (mkStorage c r ef fee) ops).capacity =
      (runOps (mkStorage c r ef fee) ops).daily_cycles ∧
    (Op.resetDaily ∉ ops →
      dischargeCycleSum (runOps (mkStorage c r ef fee) ops).transactions
          (runOps (mkStorage c r ef fee) ops).capacity =
        (runOps (mkStorage c r ef fee) ops).total_cycles) := by
  have h1 : CycInv (runOps (mkStorage c r ef fee) ops) :=
    runOps_cycInv ops _ (by simp [CycInv, dischargeCycleSum, mkStorage])
  refine ⟨h1, fun hnr => ?_⟩
  have h2 := runOps_totalDaily ops (mkStorage c r ef fee) hnr
  have h3 : (mkStorage c r ef fee).total_cycles -
      (mkStorage c r ef fee).daily_cycles = 0 := by
    simp [mkStorage]
  have h4 : (runOps (mkStorage c r ef fee) ops).total_cycles =
      (runOps (mkStorage c r ef fee) ops).daily_cycles := by
    rw [h3] at h2
    linarith
  unfold CycInv at h1
  rw [h1, h4]

/-- Witness for the amended C5 claim at a reset-free run with one charge
and one discharge. -/
theorem C5_cycle_accounting_witness :
    Op.resetDaily ∉ [Op.startCharging 10 0, Op.clearChargingFlag,
        Op.startDischarging 20 1] ∧
    dischargeCycleSum
        (runOps (mkStorage 1 1 1 0)
          [Op.startCharging 10 0, Op.clearChargingFlag,
            Op.startDischarging 20 1]).transactions
        (runOps (mkStorage 1 1 1 0)
          [Op.startCharging 10 0, Op.clearChargingFlag,
            Op.startDischarging 20 1]).capacity =
      (runOps (mkStorage 1 1 1 0)
        [Op.startCharging 10 0, Op.clearChargingFlag,
          Op.startDischarging 20 1]).total_cycles := by
  have hnr : Op.resetDaily ∉ [Op.startCharging 10 0, Op.clearChargingFlag,
      Op.startDischarging 20 1] := by simp
  exact ⟨hnr,
    (C5_cycle_accounting 1 1 1 0
      [Op.startCharging 10 0, Op.clearChargingFlag,
        Op.startDischarging 20 1]).2 hnr⟩

/-- C7 counterexample: in the C7 scenario (prices `[100, 10, 10, 10]`,
pre-charged storage), the discharge started at price 100 completes at
index 3, where the energy level 1/4 is within the 0.1 tolerance of the
target 1/5 — and `lastDischargePrice` is set to 100, the stale decision
price, although the current price at index 3 is 10. -/
theorem C7_counterexample :
    (engineRunC7 3).storage.is_discharging = true ∧
    (engineRunC7 3).discharge_target = some (1/5) ∧
    (engineRunC7 3).storage.energy_level = 1/4 ∧
    (engineRunC7 3).idx = 3 ∧
    (engineRunC7 4).storage.is_discharging = false ∧
    (engineRunC7 4).discharge_target = none ∧
    (engineRunC7 4).last_discharge_price = 100 ∧
    (engineRunC7 4).last_charge_price = none ∧
    pricesC7.getD 3 0 = 10 ∧
    (100 : ℚ) ≠ 10 := by
  obtain ⟨h3, h4⟩ := engineRunC7_runs
  rw [h3, h4]
  exact ⟨st7d_props.2.1, rfl, st7d_props.2.2, rfl, rfl, rfl, rfl, rfl,
    rfl, by norm_num⟩

/-- C7 (amended): when a discharge operation completes (energy level
within the 0.1 tolerance of the target at index j), `lastDischargePrice`
is set to the engine's stale `current_price` local — the price recorded
at the most recent decision step, i.e. the price at which the discharge
was started (0 if no decision step has yet run) — not the price at
index j; `lastChargePrice` is reset to the +∞ sentinel. During
processing steps the `current_price` local is never updated. -/
theorem C7_amended_completion_price :
    (∀ (pr : List ℚ) (W : ℕ) (e : EngineState) (tgt : ℚ),
        e.idx < pr.length → e.storage.is_charging = false →
        e.storage.is_discharging = true →
        e.discharge_target = some tgt →
        e.storage.energy_level ≤ tgt + 1/10 →
        (engineStep pr W e).last_discharge_price =
            e.current_price_var.getD 0 ∧
          (engineStep pr W e).last_charge_price = none ∧
          (engineStep pr W e).storage.is_discharging = false ∧
          (engineStep pr W e).discharge_target = none) ∧
    (∀ (pr : List ℚ) (W : ℕ) (e : EngineState),
        is_processing e.storage = true →
        (engineStep pr W e).current_price_var = e.current_price_var) := by
  constructor
  · intro pr W e tgt hidx hic hid htg hnear
    rw [engineStep_discharging_reached pr W e tgt hidx hic hid htg hnear]
    exact ⟨rfl, rfl, rfl, rfl⟩
  · intro pr W e hproc
    simp only [engineStep]
    by_cases hidx : e.idx < pr.length
    · rw [if_pos hidx, if_pos hproc]
      split_ifs <;> rfl
    · rw [if_neg hidx]

/-- Witness for the amended C7 claim at the concrete completion step of
the C7 scenario. -/
theorem C7_amended_completion_price_witness :
    e7c.storage.energy_level ≤ 1/5 + 1/10 ∧
    (engineStep pricesC7 ROLLING_WINDOW_SIZE e7c).last_discharge_price =
      e7c.current_price_var.getD 0 ∧
    (engineStep pricesC7 ROLLING_WINDOW_SIZE e7c).last_charge_price =
      none ∧
    e7c.current_price_var.getD 0 = 100 := by
  have hnear : e7c.storage.energy_level ≤ 1/5 + 1/10 := by
    rw [show e7c.storage.energy_level = st7d.energy_level from rfl,
      st7d_props.2.2]
    norm_num
  have h := (C7_amended_completion_price.1 pricesC7 ROLLING_WINDOW_SIZE
    e7c (1/5) (by norm_num [e7c, e7b, e7a, pricesC7]) st7d_props.1
    st7d_props.2.1 rfl hnear)
  exact ⟨hnear, h.1, h.2.1, rfl⟩

/-- Witness for C10 on a freshly created storage. -/
theorem C10_continue_process_idle_witness :
    continue_process (mkStorage 1 1 1 0) 7 =
      (false, { mkStorage 1 1 1 0 with current_interval := 1 }) ∧
    ((continue_process (mkStorage 1 1 1 0) 7).2).current_interval ≠
      (mkStorage 1 1 1 0).current_interval :=
  C10_continue_process_idle (mkStorage 1 1 1 0) 7 rfl rfl

end EnergyStorageSim
